import Mathlib

/-!
Verification of the conversational session engine of the chatbot
(`main.py`, `model/context_handler.py`, `model/response_handler.py`,
`model/intent_classifier.py`), as a shallow embedding: external
collaborators (preprocessor, NER, the trained model, `random.choice`,
`query_google`) are oracles passed in an environment record, exceptions are
`Except`, Python `None` is `Option.none`, and floats are rationals.
-/

set_option maxHeartbeats 1000000

namespace Chatbot

/-- Python `str.strip()` with no argument: remove leading and trailing
whitespace (written over the character list so that it evaluates inside the
kernel). -/
def pyStrip (s : String) : String :=
  String.mk (((s.toList.dropWhile Char.isWhitespace).reverse.dropWhile
    Char.isWhitespace).reverse)

/-- Python `str.lower()` on the ASCII answers compared by the engine. -/
def pyLower (s : String) : String :=
  String.mk (s.toList.map Char.toLower)

/-- A conversation turn, the dict `{"role": ..., "text": ...}` appended by
`ContextHandler.add_user_query` / `add_bot_response` (model/context_handler.py). -/
structure Turn where
  role : String
  text : String
  deriving Repr, DecidableEq

/-- `ContextHandler` (model/context_handler.py): a `window_size` and a
`deque(maxlen=window_size)` holding the turns, oldest first. -/
structure ContextHandler where
  window_size : Nat
  context : List Turn
  deriving Repr, DecidableEq

/-- `ContextHandler.__init__`: an empty deque with the given capacity. -/
def ContextHandler.init (window_size : Nat) : ContextHandler :=
  { window_size := window_size, context := [] }

/-- `deque.append` under `maxlen`: append on the right, evicting from the left
whatever exceeds the capacity. -/
def ContextHandler.push (ch : ContextHandler) (t : Turn) : ContextHandler :=
  let l := ch.context ++ [t]
  { ch with context := l.drop (l.length - ch.window_size) }

/-- `add_user_query`: append a `{"role": "user", "text": query}` turn. -/
def ContextHandler.add_user_query (ch : ContextHandler) (query : String) : ContextHandler :=
  ch.push { role := "user", text := query }

/-- `add_bot_response`: append a `{"role": "bot", "text": response}` turn. -/
def ContextHandler.add_bot_response (ch : ContextHandler) (response : String) : ContextHandler :=
  ch.push { role := "bot", text := response }

/-- `get_context`: a snapshot of the turns, oldest first (`list(self.context)`). -/
def ContextHandler.get_context (ch : ContextHandler) : List Turn :=
  ch.context

/-- `clear_context`: empty the deque. -/
def ContextHandler.clear_context (ch : ContextHandler) : ContextHandler :=
  { ch with context := [] }

/-- A turn to be appended through the public interface: `true` marks a user
query (appended via `add_user_query`), `false` a bot response
(appended via `add_bot_response`). -/
def toTurn : Bool × String → Turn
  | (true, s) => { role := "user", text := s }
  | (false, s) => { role := "bot", text := s }

/-- Append one turn through the role-appropriate public method. -/
def ContextHandler.addOne (ch : ContextHandler) : Bool × String → ContextHandler
  | (true, s) => ch.add_user_query s
  | (false, s) => ch.add_bot_response s

/-- Append a whole sequence of turns through the public interface, in order. -/
def ContextHandler.addAll (ch : ContextHandler) (ps : List (Bool × String)) : ContextHandler :=
  ps.foldl ContextHandler.addOne ch

/-- A spaCy entity as returned by `NERExtractor.extract_entities`
(only the fields the engine reads). -/
structure Entity where
  text : String
  label : String
  deriving Repr, DecidableEq

/-- The value call sites hand to `ResponseHandler.google_fallback` as `query`:
every call in `main.py` passes a string, while `get_response`'s
no-local-response branch passes the raw context list itself
(response_handler.py line 93). -/
inductive GoogleQuery where
  | str (s : String)
  | ctxList (l : List Turn)
  deriving Repr, DecidableEq

/-- The slice of `config.Config` the session engine reads. `config.py`
defines no `CONFIDENCE_THRESHOLD` class attribute; one exists only after the
admin settings tab assigns it at runtime (admin/tabs/settings_tab.py line
185), so it is an `Option`: `none` models the absent attribute, whose read
in `process_input` raises `AttributeError`. -/
structure Config where
  CONFIDENCE_THRESHOLD : Option Rat
  ENABLE_GOOGLE_FALLBACK : Bool
  ENABLE_GENERATIVE_RESPONSE : Bool
  CONTEXT_WINDOW_SIZE : Nat
  deriving Repr, DecidableEq

/-- External collaborators and sources of nondeterminism, as oracles:
the preprocessor, the NER extractor, the intent-classifier facade's
`predict_intent` (`Except.error` models a raised exception), `random.choice`,
and the outcome of `utils.web_search.query_google` per query and attempt
number (`none` means that attempt raised). -/
structure Env where
  preprocess : String → List String
  extract_entities : String → List Entity
  classify : List String → Except String (String × Rat)
  pick : List String → String
  google : GoogleQuery → Nat → Option (List String)

/-- Effects of one call recorded by the embedding: the unmatched-query audit
entries written by `_log_unmatched_query`, and the queries passed to
`google_fallback`. -/
structure Effects where
  unmatched : List String
  googleQueries : List GoogleQuery
  deriving Repr, DecidableEq

/-- No effects. -/
def Effects.empty : Effects :=
  { unmatched := [], googleQueries := [] }

/-- `ResponseHandler` state (response_handler.py `__init__`): the default
responses (those of the `"default"` intent) and the tag-to-responses map of
every other intent. -/
structure ResponseHandler where
  default_responses : List String
  response_map : List (String × List String)
  deriving Repr, DecidableEq

/-- `_get_google_results_with_retry`, fuel-indexed: up to `fuel` calls to
`query_google`, attempts numbered from `attempt`; yields the first successful
result together with the number of calls made, or `none` after every attempt
failed (the loop falls through and raises). -/
def retryGoogle (g : Nat → Option (List String)) : Nat → Nat → Option (List String) × Nat
  | _, 0 => (none, 0)
  | attempt, fuel + 1 =>
    match g attempt with
    | some r => (some r, 1)
    | none =>
      let rest := retryGoogle g (attempt + 1) fuel
      (rest.1, rest.2 + 1)

/-- `_get_google_results_with_retry(query, retries)`: `for attempt in
range(retries + 1)` makes at most `retries + 1` calls to `query_google`. -/
def getGoogleResultsWithRetry (g : Nat → Option (List String)) (retries : Nat) :
    Option (List String) × Nat :=
  retryGoogle g 0 (retries + 1)

/-- How the `query` value prints inside an f-string (`_merge_google_results`
formats it; a context list prints as Python would render a list — modelled
as an explicit rendering of its turns). -/
def GoogleQuery.render : GoogleQuery → String
  | .str s => s
  | .ctxList l => String.intercalate "; " (l.map (fun t => t.role ++ ": " ++ t.text))

/-- `_merge_google_results`: a headed, bulleted rendering of the results, or
an apology when the result list is empty. -/
def mergeGoogleResults (query : GoogleQuery) (results : List String) : String :=
  if results = [] then "Sorry, I couldn't find an answer online."
  else
    "(Google Fallback Results)\n" ++ "Top results for '" ++ query.render ++ "':\n" ++
      String.intercalate "\n" (results.map (fun r => "- " ++ r))

/-- The disclosure appended by `google_fallback` on success
(response_handler.py line 128). -/
def googleConfirmationNotice : String :=
  "(This answer was sourced from Google Search because no matching intent was found.)"

/-- `ResponseHandler.google_fallback`: run the bounded-retry search (default
`retries=2`); on success return the merged results followed by the disclosure
notice; on exhaustion (the raised exception is caught) return a
`random.choice` from the default responses. -/
def ResponseHandler.google_fallback (rh : ResponseHandler) (env : Env) (query : GoogleQuery) :
    String :=
  match (getGoogleResultsWithRetry (env.google query) 2).1 with
  | some results => mergeGoogleResults query results ++ "\n\n" ++ googleConfirmationNotice
  | none => env.pick rh.default_responses

/-- The query `_log_unmatched_query` records: `context[-1]['text']` when the
context is non-empty, else the literal `"unknown_query"`. -/
def originalQuery (context : List Turn) : String :=
  match context.getLast? with
  | some t => t.text
  | none => "unknown_query"

/-- The first `PERSON` entity's text, if any (the entity loop in
`get_response`). -/
def firstPersonName (entities : List Entity) : Option String :=
  (entities.find? (fun e => e.label == "PERSON")).map (fun e => e.text)

/-- The result of `get_response`: the text, plus the effects the call made. -/
structure RespOut where
  response : String
  effects : Effects
  deriving Repr, DecidableEq

/-- `ResponseHandler.get_response` (response_handler.py lines 40-100), in
source order: the generative hook is a no-op; the entity loop returns a
personalized greeting only when the tag is `"greeting"` and a `PERSON` entity
is present; `"unknown"`/`"no_match"` log an unmatched-query audit entry and
return a default pick; `"default"` returns a default pick; a tag with
configured responses returns a pick among them; otherwise the Google fallback
runs when enabled (passing the raw context list as the query), else a default
pick is returned. `confidence` is only logged. -/
def ResponseHandler.get_response (rh : ResponseHandler) (cfg : Config) (env : Env)
    (intent_tag : String) (confidence : Rat) (context : List Turn)
    (entities : List Entity) : RespOut :=
  let _ := confidence
  let _ := cfg.ENABLE_GENERATIVE_RESPONSE
  match (if intent_tag = "greeting" then firstPersonName entities else none) with
  | some name =>
    { response := "Hello " ++ name ++ "! How can I help you today?", effects := Effects.empty }
  | none =>
    if intent_tag = "unknown" ∨ intent_tag = "no_match" then
      { response := env.pick rh.default_responses,
        effects := { unmatched := [originalQuery context], googleQueries := [] } }
    else if intent_tag = "default" then
      { response := env.pick rh.default_responses, effects := Effects.empty }
    else
      let responses := (rh.response_map.lookup intent_tag).getD []
      if responses = [] then
        if cfg.ENABLE_GOOGLE_FALLBACK then
          let q := GoogleQuery.ctxList context
          { response := rh.google_fallback env q,
            effects := { unmatched := [], googleQueries := [q] } }
        else
          { response := env.pick rh.default_responses, effects := Effects.empty }
      else
        { response := env.pick responses, effects := Effects.empty }

/-- A per-user session as created by `get_or_create_session` (main.py): the
context handler, the Google-search confirmation flag, the session search
preference (Python `None`/`True`/`False`), and the stored pending query. -/
structure Session where
  context_handler : ContextHandler
  google_search_confirmation_pending : Bool
  session_google_search_preference : Option Bool
  last_unknown_query : Option String
  deriving Repr, DecidableEq

/-- `get_or_create_session` for an absent user id: a fresh session around an
empty context window of the configured size. -/
def Session.fresh (window_size : Nat) : Session :=
  { context_handler := ContextHandler.init window_size
    google_search_confirmation_pending := false
    session_google_search_preference := none
    last_unknown_query := none }

/-- The dict `process_input` returns. -/
structure ProcResult where
  response : String
  intent : String
  confidence : Rat
  entities : List Entity
  deriving Repr, DecidableEq

/-- One `process_input` call: its returned dict, the session as mutated, and
the effects performed. -/
structure StepOut where
  result : ProcResult
  session : Session
  effects : Effects
  deriving Repr, DecidableEq

/-- Response to blank input (main.py line 167). -/
def promptToType : String :=
  "Please type something to start our conversation."

/-- The yes/no prompt issued when an unknown query is met with no established
search preference (main.py line 215). -/
def googleConfirmPrompt : String :=
  "I'm not sure how to answer that. Would you like me to search Google for an answer? (yes/no)"

/-- The re-prompt for a confirmation answer that is neither yes nor no
(main.py line 192). -/
def googleReprompt : String :=
  "Please answer with 'yes' or 'no'. Would you like me to search Google for an answer?"

/-- The fixed decline response on a "no" (main.py line 187). -/
def declineResponse : String :=
  "Okay, I won't search. How else can I help you?"

/-- The degraded response when prediction raises (main.py line 205). -/
def troubleResponse : String :=
  "Sorry, I'm having trouble understanding right now."

/-- The confidence gate (main.py lines 200-202): a prediction below the
threshold is relabelled `"unknown"`. -/
def gateIntent (threshold : Rat) (label : String) (confidence : Rat) : String :=
  if confidence < threshold then "unknown" else label

/-- `ChatbotApp.process_input` (main.py lines 146-222) for one session.
Order follows the source: entities are extracted first; blank input returns
immediately; a pending Google confirmation short-circuits to the yes/no
handling; otherwise the user turn is appended, the text preprocessed and
classified inside `try` (reading the possibly-absent
`config.CONFIDENCE_THRESHOLD` is part of the guarded region), the gate
applied, and the `"unknown"`/known branches produce the response. -/
def processInput (cfg : Config) (rh : ResponseHandler) (env : Env) (sess : Session)
    (user_input : String) : StepOut :=
  let entities := env.extract_entities user_input
  if pyStrip user_input = "" then
    { result := { response := promptToType, intent := "none", confidence := 1,
                  entities := entities },
      session := sess, effects := Effects.empty }
  else if sess.google_search_confirmation_pending then
    if pyLower user_input = "yes" ∨ pyLower user_input = "y" then
      -- the pending branch is entered only with a stored query; `getD ""`
      -- renders the unreachable Python `None` case
      let query := sess.last_unknown_query.getD ""
      let response_text := rh.google_fallback env (GoogleQuery.str query)
      let ch1 := (sess.context_handler.add_user_query query).add_bot_response response_text
      { result := { response := response_text, intent := "google_search", confidence := 1,
                    entities := entities },
        session := { context_handler := ch1
                     google_search_confirmation_pending := false
                     session_google_search_preference := some true
                     last_unknown_query := none },
        effects := { unmatched := [], googleQueries := [GoogleQuery.str query] } }
    else if pyLower user_input = "no" ∨ pyLower user_input = "n" then
      let ch1 := (sess.context_handler.add_user_query user_input).add_bot_response declineResponse
      { result := { response := declineResponse, intent := "default", confidence := 1,
                    entities := entities },
        session := { context_handler := ch1
                     google_search_confirmation_pending := false
                     session_google_search_preference := some false
                     last_unknown_query := none },
        effects := Effects.empty }
    else
      { result := { response := googleReprompt, intent := "unknown_google_confirm",
                    confidence := 1, entities := entities },
        session := sess, effects := Effects.empty }
  else
    let ch1 := sess.context_handler.add_user_query user_input
    let tokens := env.preprocess user_input
    match env.classify tokens with
    | Except.error _ =>
      { result := { response := troubleResponse, intent := "error", confidence := 0,
                    entities := entities },
        session := { sess with context_handler := ch1 }, effects := Effects.empty }
    | Except.ok (label, confidence) =>
      match cfg.CONFIDENCE_THRESHOLD with
      | none =>
        -- `self.config.CONFIDENCE_THRESHOLD` raises `AttributeError`,
        -- caught by the same handler
        { result := { response := troubleResponse, intent := "error", confidence := 0,
                      entities := entities },
          session := { sess with context_handler := ch1 }, effects := Effects.empty }
      | some threshold =>
        let predicted_intent := gateIntent threshold label confidence
        if predicted_intent = "unknown" then
          match sess.session_google_search_preference with
          | some true =>
            let response := rh.google_fallback env (GoogleQuery.str user_input)
            { result := { response := response, intent := predicted_intent,
                          confidence := confidence, entities := entities },
              session := { sess with context_handler := ch1.add_bot_response response },
              effects := { unmatched := [], googleQueries := [GoogleQuery.str user_input] } }
          | some false =>
            let out := rh.get_response cfg env "default" 1 ch1.get_context entities
            { result := { response := out.response, intent := predicted_intent,
                          confidence := confidence, entities := entities },
              session := { sess with context_handler := ch1.add_bot_response out.response },
              effects := out.effects }
          | none =>
            { result := { response := googleConfirmPrompt, intent := "unknown_google_confirm",
                          confidence := confidence, entities := entities },
              session := { sess with context_handler := ch1
                                     google_search_confirmation_pending := true
                                     last_unknown_query := some user_input },
              effects := Effects.empty }
        else
          let out := rh.get_response cfg env predicted_intent confidence ch1.get_context entities
          { result := { response := out.response, intent := predicted_intent,
                        confidence := confidence, entities := entities },
            session := { sess with context_handler := ch1.add_bot_response out.response },
            effects := out.effects }

/-- `SVMIntentClassifier` runtime state: whether `self.model` and
`self.vectorizer` are set (truthy), and — when they are — the fitted model's
behaviour as an oracle giving `predict`'s label and the maximum of
`predict_proba` for the vectorized text. -/
structure SVMIntentClassifier where
  model : Bool
  vectorizer : Bool
  predictProba : List String → String × Rat

/-- `SVMIntentClassifier.predict_intent` (intent_classifier.py lines
215-247): with model or vectorizer unset it logs an error and returns
`('unknown', 0.0)` — it does not raise; empty joined text short-circuits to
`('default', 1.0)`; a maximum probability below `0.3` yields
`('no_match', confidence)`; otherwise the predicted label and confidence. -/
def SVMIntentClassifier.predict_intent (c : SVMIntentClassifier) (tokens : List String) :
    String × Rat :=
  if ¬ c.model ∨ ¬ c.vectorizer then ("unknown", 0)
  else
    let text := String.intercalate " " tokens
    if pyStrip text = "" then ("default", 1)
    else
      let p := c.predictProba tokens
      if p.2 < (3 : Rat) / 10 then ("no_match", p.2) else p

/-- `IntentClassifier.load_model` (intent_classifier.py lines 71-73): the
facade calls `self.classifier.load_model()` — which returns a `bool` — but
has no `return` statement, so the facade itself returns Python `None`
whatever the delegate returned. -/
def IntentClassifier.load_model (delegate_result : Bool) : Option Bool :=
  let _ := delegate_result
  none

/-- Python truthiness of an `Optional[bool]` value (`None` is falsy). -/
def pyTruthy : Option Bool → Bool
  | none => false
  | some b => b

/-- Startup (main.py lines 72-82): `loaded = self.intent_classifier.load_model()`
followed by `if not loaded: self.retrain_model(background=True)`. `true` means
background retraining is initiated. -/
def startupInitiatesRetrain (delegate_result : Bool) : Bool :=
  ! pyTruthy (IntentClassifier.load_model delegate_result)

/-! Concrete fixtures used by witnesses and counterexamples. -/

/-- A configuration with a threshold of `1/2` set (as the admin panel would)
and the Google fallback enabled, the `config.py` default. -/
def cfgW : Config :=
  { CONFIDENCE_THRESHOLD := some 1
    ENABLE_GOOGLE_FALLBACK := true
    ENABLE_GENERATIVE_RESPONSE := false
    CONTEXT_WINDOW_SIZE := 3 }

/-- The same configuration with the Google fallback disabled. -/
def cfgNoFallback : Config :=
  { cfgW with ENABLE_GOOGLE_FALLBACK := false }

/-- A response handler with one default response and one catalog intent. -/
def rhW : ResponseHandler :=
  { default_responses := ["I'm not sure what to say."]
    response_map := [("greeting", ["Hi there!"])] }

/-- An environment whose classifier answers `("greeting", 9/10)` and whose
search always fails. -/
def envHi : Env :=
  { preprocess := fun s => [s]
    extract_entities := fun _ => []
    classify := fun _ => Except.ok ("greeting", 2)
    pick := fun l => l.headD ""
    google := fun _ _ => none }

/-- An environment whose classifier answers with confidence `1/10`, below the
`1/2` threshold. -/
def envLow : Env :=
  { envHi with classify := fun _ => Except.ok ("greeting", 0) }

/-- An environment whose search succeeds on the first attempt. -/
def envSearchOk : Env :=
  { envHi with google := fun _ _ => some ["result one"] }

/-- An SVM classifier whose model and vectorizer were never loaded or
trained. -/
def svmUnset : SVMIntentClassifier :=
  { model := false
    vectorizer := false
    predictProba := fun _ => ("greeting", 2) }

/-- The environment in which the facade delegates to the unset SVM
classifier (no exception is ever raised). -/
def envSvmUnset : Env :=
  { envHi with classify := fun tokens => Except.ok (svmUnset.predict_intent tokens) }

/-- A session in the ConfirmationPending state with pending query `"Q"`. -/
def sessPending : Session :=
  { context_handler := ContextHandler.init 3
    google_search_confirmation_pending := true
    session_google_search_preference := none
    last_unknown_query := some "Q" }

/-! Theorems. -/

/-- Appending through the public interface is `push` of the rendered turn. -/
theorem ContextHandler.addOne_eq_push (ch : ContextHandler) (p : Bool × String) :
    ch.addOne p = ch.push (toTurn p) := by
  rcases p with ⟨b, s⟩
  cases b <;> rfl

/-- Trimming a list to its last `N` elements, appending, and trimming again
is the same as trimming the whole concatenation. -/
theorem drop_to_last_append (z psM : List Turn) (N : Nat) :
    ((z.drop (z.length - N)) ++ psM).drop (((z.drop (z.length - N)) ++ psM).length - N) =
      (z ++ psM).drop ((z ++ psM).length - N) := by
  rw [← List.drop_append_of_le_length (Nat.sub_le z.length N), List.drop_drop]
  congr 1
  simp only [List.length_append, List.length_drop]
  omega

/-- Folding the public append over a starting window of at most
`window_size` turns leaves exactly the trailing `window_size` turns of the
whole concatenation. -/
theorem ContextHandler.addAll_context (N : Nat) (ps : List (Bool × String)) :
    ∀ l : List Turn, l.length ≤ N →
      (ContextHandler.addAll { window_size := N, context := l } ps).context =
        (l ++ ps.map toTurn).drop ((l ++ ps.map toTurn).length - N) := by
  induction ps with
  | nil =>
    intro l hl
    simp only [ContextHandler.addAll, List.foldl_nil, List.map_nil, List.append_nil]
    rw [Nat.sub_eq_zero_of_le hl, List.drop_zero]
  | cons p ps ih =>
    intro l hl
    have hstep : ContextHandler.addOne { window_size := N, context := l } p =
        { window_size := N,
          context := (l ++ [toTurn p]).drop ((l ++ [toTurn p]).length - N) } := by
      rw [ContextHandler.addOne_eq_push]
      rfl
    have hlen2 : ((l ++ [toTurn p]).drop ((l ++ [toTurn p]).length - N)).length ≤ N := by
      simp only [List.length_drop, List.length_append, List.length_cons, List.length_nil]
      omega
    have hmain := ih ((l ++ [toTurn p]).drop ((l ++ [toTurn p]).length - N)) hlen2
    simp only [ContextHandler.addAll, List.foldl_cons] at hmain ⊢
    rw [hstep, hmain]
    have hkey := drop_to_last_append (l ++ [toTurn p]) (ps.map toTurn) N
    simpa using hkey

/-- C5: for every window size `N` and every sequence of `M > N` turns
appended via `add_user_query`/`add_bot_response`, `get_context()` is exactly
the last `N` turns in their original relative order; the context length never
exceeds the window size, the oldest turn being evicted FIFO on each append
beyond capacity. -/
theorem C5_context_window (N : Nat) (ps : List (Bool × String)) (h : N < ps.length) :
    ((ContextHandler.init N).addAll ps).get_context =
        (ps.map toTurn).drop (ps.length - N) ∧
    ((ContextHandler.init N).addAll ps).get_context.length = N ∧
    ∀ qs : List (Bool × String),
      ((ContextHandler.init N).addAll qs).get_context.length ≤ N := by
  have base := ContextHandler.addAll_context N ps [] (by simp)
  simp only [List.nil_append] at base
  refine ⟨?_, ?_, ?_⟩
  · show ((ContextHandler.init N).addAll ps).context = _
    rw [show ContextHandler.init N = { window_size := N, context := [] } from rfl, base]
    simp [List.length_map]
  · show ((ContextHandler.init N).addAll ps).context.length = N
    rw [show ContextHandler.init N = { window_size := N, context := [] } from rfl, base]
    simp only [List.length_drop, List.length_map]
    omega
  · intro qs
    have bq := ContextHandler.addAll_context N qs [] (by simp)
    simp only [List.nil_append] at bq
    show ((ContextHandler.init N).addAll qs).context.length ≤ N
    rw [show ContextHandler.init N = { window_size := N, context := [] } from rfl, bq]
    simp only [List.length_drop, List.length_map]
    omega

/-- Witness for C5 at `N = 1` and a two-turn sequence. -/
theorem C5_context_window_witness :
    ((ContextHandler.init 1).addAll [(true, "a"), (false, "b")]).get_context =
      ([(true, "a"), (false, "b")].map toTurn).drop ([(true, "a"), (false, "b")].length - 1) :=
  (C5_context_window 1 [(true, "a"), (false, "b")] (by decide)).1

/-- C10: the Intent Classifier facade's `load_model` does not propagate its
delegate's boolean result and always returns `None`, so at startup the
`if not loaded` check is always true and background retraining is initiated
on every start, even when the saved model was loaded from disk
successfully. -/
theorem C10_load_model_always_none (delegate_result : Bool) :
    IntentClassifier.load_model delegate_result = none ∧
    startupInitiatesRetrain delegate_result = true := by
  cases delegate_result <;> exact ⟨rfl, rfl⟩

/-- The retry loop makes at most `fuel` calls to `query_google`. -/
theorem retryGoogle_count_le (g : Nat → Option (List String)) :
    ∀ (fuel attempt : Nat), (retryGoogle g attempt fuel).2 ≤ fuel := by
  intro fuel
  induction fuel with
  | zero =>
    intro attempt
    simp [retryGoogle]
  | succ n ih =>
    intro attempt
    cases hg : g attempt
    · have hr : (retryGoogle g attempt (n + 1)).2 = (retryGoogle g (attempt + 1) n).2 + 1 := by
        simp [retryGoogle, hg]
      rw [hr]
      exact Nat.succ_le_succ (ih (attempt + 1))
    · have hr : (retryGoogle g attempt (n + 1)).2 = 1 := by
        simp [retryGoogle, hg]
      rw [hr]
      omega

/-- C9: every Google-fallback invocation attempts the external search a
bounded number of times (`retries = 2` by default, so at most three calls);
when every attempt fails, `google_fallback` returns a pick from the default
response set instead of propagating the failure, and on success the returned
text ends with the disclosure notice that the answer was sourced from an
external Google search. -/
theorem C9_google_fallback_retry_contract (rh : ResponseHandler) (env : Env) (q : GoogleQuery) :
    (getGoogleResultsWithRetry (env.google q) 2).2 ≤ 2 + 1 ∧
    ((getGoogleResultsWithRetry (env.google q) 2).1 = none →
      rh.google_fallback env q = env.pick rh.default_responses) ∧
    ∀ rs : List String, (getGoogleResultsWithRetry (env.google q) 2).1 = some rs →
      ∃ pre : String, rh.google_fallback env q = pre ++ googleConfirmationNotice := by
  refine ⟨retryGoogle_count_le _ _ _, ?_, ?_⟩
  · intro h
    simp [ResponseHandler.google_fallback, h]
  · intro rs h
    refine ⟨mergeGoogleResults q rs ++ "\n\n", ?_⟩
    simp [ResponseHandler.google_fallback, h]

/-- Witness for C9: with an always-failing search the fallback degrades to a
default pick within the retry bound, and with a succeeding search the
response carries the disclosure notice. -/
theorem C9_google_fallback_retry_contract_witness :
    (getGoogleResultsWithRetry (envHi.google (GoogleQuery.str "q")) 2).2 ≤ 2 + 1 ∧
    rhW.google_fallback envHi (GoogleQuery.str "q") = envHi.pick rhW.default_responses ∧
    ∃ pre : String, rhW.google_fallback envSearchOk (GoogleQuery.str "q") =
      pre ++ googleConfirmationNotice :=
  ⟨(C9_google_fallback_retry_contract rhW envHi (GoogleQuery.str "q")).1,
    (C9_google_fallback_retry_contract rhW envHi (GoogleQuery.str "q")).2.1 (by decide),
    (C9_google_fallback_retry_contract rhW envSearchOk (GoogleQuery.str "q")).2.2
      ["result one"] (by decide)⟩

/-- Counterexample to C4 as stated: with the Google-fallback feature flag
enabled, `get_response` on intent `"unknown"` records the audit entry but
returns a default pick without ever invoking the Google fallback. -/
theorem C4_counterexample :
    cfgW.ENABLE_GOOGLE_FALLBACK = true ∧
    (rhW.get_response cfgW envLow "unknown" (1 / 10)
      [{ role := "user", text := "asdkjasd" }] []).effects.googleQueries = [] ∧
    (rhW.get_response cfgW envLow "unknown" (1 / 10)
      [{ role := "user", text := "asdkjasd" }] []).response =
        envLow.pick rhW.default_responses ∧
    (rhW.get_response cfgW envLow "unknown" (1 / 10)
      [{ role := "user", text := "asdkjasd" }] []).effects.unmatched = ["asdkjasd"] :=
  ⟨rfl, rfl, rfl, rfl⟩

/-- C4 (amended): for every Response Resolver call with intent label
`"unknown"` or `"no_match"`, an unmatched-query audit entry is recorded for
the original user query (the last context turn's text, or `"unknown_query"`
on an empty context) and a uniformly-random pick from the default response
set is returned, regardless of the Google-fallback feature flag; the Google
fallback is never invoked on this path. -/
theorem C4_unknown_audits_then_defaults (rh : ResponseHandler) (cfg : Config) (env : Env)
    (tag : String) (conf : Rat) (context : List Turn) (entities : List Entity)
    (h : tag = "unknown" ∨ tag = "no_match") :
    (rh.get_response cfg env tag conf context entities).response =
      env.pick rh.default_responses ∧
    (rh.get_response cfg env tag conf context entities).effects.unmatched =
      [originalQuery context] ∧
    (rh.get_response cfg env tag conf context entities).effects.googleQueries = [] := by
  rcases h with h | h <;> subst h <;>
    exact ⟨by simp [ResponseHandler.get_response], by simp [ResponseHandler.get_response],
      by simp [ResponseHandler.get_response]⟩

/-- Witness for C4 (amended), the spec's concrete scenario 2: confidence
below threshold with the fallback disabled yields a default pick and an
audit entry. -/
theorem C4_unknown_audits_then_defaults_witness :
    (rhW.get_response cfgNoFallback envLow "unknown" (1 / 10)
      [{ role := "user", text := "asdkjasd" }] []).response =
        envLow.pick rhW.default_responses ∧
    (rhW.get_response cfgNoFallback envLow "unknown" (1 / 10)
      [{ role := "user", text := "asdkjasd" }] []).effects.unmatched = ["asdkjasd"] :=
  ⟨(C4_unknown_audits_then_defaults rhW cfgNoFallback envLow "unknown" (1 / 10)
      [{ role := "user", text := "asdkjasd" }] [] (Or.inl rfl)).1,
    (C4_unknown_audits_then_defaults rhW cfgNoFallback envLow "unknown" (1 / 10)
      [{ role := "user", text := "asdkjasd" }] [] (Or.inl rfl)).2.1⟩

/-- Every query `get_response` hands to the Google fallback is the raw
context list — never one of the string queries of the confirmation flow. -/
theorem get_response_google_shape (rh : ResponseHandler) (cfg : Config) (env : Env)
    (tag : String) (conf : Rat) (context : List Turn) (entities : List Entity) :
    (rh.get_response cfg env tag conf context entities).effects.googleQueries = [] ∨
    (rh.get_response cfg env tag conf context entities).effects.googleQueries =
      [GoogleQuery.ctxList context] := by
  unfold ResponseHandler.get_response
  split
  · left
    rfl
  · by_cases h1 : tag = "unknown" ∨ tag = "no_match" <;>
      by_cases h2 : tag = "default" <;>
      by_cases h3 : (List.lookup tag rh.response_map).getD [] = [] <;>
      by_cases h4 : cfg.ENABLE_GOOGLE_FALLBACK = true <;>
      simp [Effects.empty, h1, h2, h3, h4]

/-- Shared: in the Normal state, a below-threshold classification makes the
returned intent `"unknown"` or `"unknown_google_confirm"`. -/
theorem processInput_low_confidence_intent (cfg : Config) (rh : ResponseHandler) (env : Env)
    (sess : Session) (input label : String) (conf t : Rat)
    (hpend : sess.google_search_confirmation_pending = false)
    (hblank : ¬ pyStrip input = "")
    (hcls : env.classify (env.preprocess input) = Except.ok (label, conf))
    (hthr : cfg.CONFIDENCE_THRESHOLD = some t)
    (hlow : conf < t) :
    (processInput cfg rh env sess input).result.intent = "unknown" ∨
    (processInput cfg rh env sess input).result.intent = "unknown_google_confirm" := by
  rcases hpref : sess.session_google_search_preference with _ | b
  · right
    simp [processInput, hblank, hpend, hcls, hthr, gateIntent, hlow, hpref]
  · cases b <;> [left; left] <;>
      simp [processInput, hblank, hpend, hcls, hthr, gateIntent, hlow, hpref]

/-- C1: in the Normal state, a non-blank input whose classification confidence
is strictly below the configured threshold is treated as `"unknown"`: the
returned intent is `"unknown"` or `"unknown_google_confirm"`, hence never a
real catalog tag (any tag distinct from those two sentinels). -/
theorem C1_low_confidence_never_catalog_tag (cfg : Config) (rh : ResponseHandler) (env : Env)
    (sess : Session) (input label : String) (conf t : Rat)
    (hpend : sess.google_search_confirmation_pending = false)
    (hblank : ¬ pyStrip input = "")
    (hcls : env.classify (env.preprocess input) = Except.ok (label, conf))
    (hthr : cfg.CONFIDENCE_THRESHOLD = some t)
    (hlow : conf < t) :
    ((processInput cfg rh env sess input).result.intent = "unknown" ∨
      (processInput cfg rh env sess input).result.intent = "unknown_google_confirm") ∧
    ∀ tags : List String, "unknown" ∉ tags → "unknown_google_confirm" ∉ tags →
      (processInput cfg rh env sess input).result.intent ∉ tags := by
  have hmain := processInput_low_confidence_intent cfg rh env sess input label conf t
    hpend hblank hcls hthr hlow
  refine ⟨hmain, ?_⟩
  intro tags h1 h2 hmem
  rcases hmain with h | h <;> rw [h] at hmem
  · exact h1 hmem
  · exact h2 hmem

/-- Witness for C1: confidence `1/10` below threshold `1/2` on a fresh
session; the returned intent is not among the catalog tags. -/
theorem C1_low_confidence_never_catalog_tag_witness :
    ((processInput cfgW rhW envLow (Session.fresh 3) "asdkjasd").result.intent = "unknown" ∨
      (processInput cfgW rhW envLow (Session.fresh 3) "asdkjasd").result.intent =
        "unknown_google_confirm") ∧
    (processInput cfgW rhW envLow (Session.fresh 3) "asdkjasd").result.intent ∉
      ["greeting", "goodbye"] := by
  have h := C1_low_confidence_never_catalog_tag cfgW rhW envLow (Session.fresh 3) "asdkjasd"
    "greeting" 0 1 rfl (by decide) rfl rfl (by decide)
  exact ⟨h.1, h.2 ["greeting", "goodbye"] (by decide) (by decide)⟩

/-- C2: in the Normal state with no established search preference, an input
classified `"unknown"` transitions the session to ConfirmationPending,
stores the raw query as the pending query, and returns the yes/no prompt with
intent `"unknown_google_confirm"`; only the user turn — no bot response — is
appended to the context window. -/
theorem C2_unknown_transitions_to_confirmation (cfg : Config) (rh : ResponseHandler) (env : Env)
    (sess : Session) (input label : String) (conf t : Rat)
    (hpend : sess.google_search_confirmation_pending = false)
    (hpref : sess.session_google_search_preference = none)
    (hblank : ¬ pyStrip input = "")
    (hcls : env.classify (env.preprocess input) = Except.ok (label, conf))
    (hthr : cfg.CONFIDENCE_THRESHOLD = some t)
    (hunk : gateIntent t label conf = "unknown") :
    (processInput cfg rh env sess input).session.google_search_confirmation_pending = true ∧
    (processInput cfg rh env sess input).session.last_unknown_query = some input ∧
    (processInput cfg rh env sess input).result.intent = "unknown_google_confirm" ∧
    (processInput cfg rh env sess input).result.response = googleConfirmPrompt ∧
    (processInput cfg rh env sess input).session.context_handler =
      sess.context_handler.add_user_query input := by
  refine ⟨?_, ?_, ?_, ?_, ?_⟩ <;>
    simp [processInput, hblank, hpend, hcls, hthr, hunk, hpref]

/-- Witness for C2 on a fresh session with a below-threshold classification. -/
theorem C2_unknown_transitions_to_confirmation_witness :
    (processInput cfgW rhW envLow (Session.fresh 3) "asdkjasd").session.google_search_confirmation_pending = true ∧
    (processInput cfgW rhW envLow (Session.fresh 3) "asdkjasd").session.last_unknown_query =
      some "asdkjasd" ∧
    (processInput cfgW rhW envLow (Session.fresh 3) "asdkjasd").result.intent =
      "unknown_google_confirm" ∧
    (processInput cfgW rhW envLow (Session.fresh 3) "asdkjasd").result.response =
      googleConfirmPrompt ∧
    (processInput cfgW rhW envLow (Session.fresh 3) "asdkjasd").session.context_handler =
      (Session.fresh 3).context_handler.add_user_query "asdkjasd" :=
  C2_unknown_transitions_to_confirmation cfgW rhW envLow (Session.fresh 3) "asdkjasd"
    "greeting" 0 1 rfl rfl (by decide) rfl rfl (by decide)

/-- Every Google query recorded by `get_response` is a context-list query. -/
theorem get_response_google_mem (rh : ResponseHandler) (cfg : Config) (env : Env)
    (tag : String) (conf : Rat) (context : List Turn) (entities : List Entity) :
    ∀ g ∈ (rh.get_response cfg env tag conf context entities).effects.googleQueries,
      ∃ l, g = GoogleQuery.ctxList l := by
  intro g hg
  rcases get_response_google_shape rh cfg env tag conf context entities with h | h <;>
    rw [h] at hg
  · simp at hg
  · simp at hg
    exact ⟨context, hg⟩

/-- C3: in ConfirmationPending with pending query `Q`, an input normalizing
to "yes"/"y" sets the search preference to true, clears the pending state,
performs the Google fallback on `Q`, appends both `Q` and the fallback
response to the context, and returns intent `"google_search"`; the pending
query is consumed, so a second affirmative without a new unknown
classification never searches the old `Q` again. -/
theorem C3_yes_searches_and_consumes (cfg : Config) (rh : ResponseHandler) (env : Env)
    (sess : Session) (input Q : String)
    (hpend : sess.google_search_confirmation_pending = true)
    (hq : sess.last_unknown_query = some Q)
    (hblank : ¬ pyStrip input = "")
    (hyes : pyLower input = "yes" ∨ pyLower input = "y") :
    (processInput cfg rh env sess input).session.session_google_search_preference = some true ∧
    (processInput cfg rh env sess input).session.google_search_confirmation_pending = false ∧
    (processInput cfg rh env sess input).session.last_unknown_query = none ∧
    (processInput cfg rh env sess input).result.intent = "google_search" ∧
    (processInput cfg rh env sess input).result.response =
      rh.google_fallback env (GoogleQuery.str Q) ∧
    (processInput cfg rh env sess input).effects.googleQueries = [GoogleQuery.str Q] ∧
    (processInput cfg rh env sess input).session.context_handler =
      (sess.context_handler.add_user_query Q).add_bot_response
        (rh.google_fallback env (GoogleQuery.str Q)) ∧
    ∀ (s lab2 : String) (conf2 t : Rat),
      cfg.CONFIDENCE_THRESHOLD = some t →
      env.classify (env.preprocess s) = Except.ok (lab2, conf2) →
      gateIntent t lab2 conf2 ≠ "unknown" →
      ∀ g ∈ (processInput cfg rh env
          (processInput cfg rh env sess input).session s).effects.googleQueries,
        g ≠ GoogleQuery.str Q := by
  have hstep : processInput cfg rh env sess input =
      ⟨⟨rh.google_fallback env (GoogleQuery.str Q), "google_search", 1,
          env.extract_entities input⟩,
        ⟨(sess.context_handler.add_user_query Q).add_bot_response
            (rh.google_fallback env (GoogleQuery.str Q)), false, some true, none⟩,
        ⟨[], [GoogleQuery.str Q]⟩⟩ := by
    simp [processInput, hblank, hpend, hq, eq_true hyes]
  refine ⟨by rw [hstep], by rw [hstep], by rw [hstep], by rw [hstep], by rw [hstep],
    by rw [hstep], by rw [hstep], ?_⟩
  intro s lab2 conf2 t hthr hcls hgate g hg
  rw [hstep] at hg
  by_cases hb : pyStrip s = ""
  · simp [processInput, hb, Effects.empty] at hg
  · simp only [processInput, hb, hcls, hthr, hgate, Effects.empty] at hg
    simp [hb, hgate] at hg
    obtain ⟨l, hl⟩ := get_response_google_mem _ _ _ _ _ _ _ g hg
    subst hl
    simp

/-- Witness for C3: session pending on `"Q"`, input `"yes"`; the second
`"yes"` (classified at high confidence) performs no search on `"Q"`. -/
theorem C3_yes_searches_and_consumes_witness :
    (processInput cfgW rhW envHi sessPending "yes").result.intent = "google_search" ∧
    (processInput cfgW rhW envHi sessPending "yes").session.last_unknown_query = none ∧
    (processInput cfgW rhW envHi sessPending "yes").effects.googleQueries =
      [GoogleQuery.str "Q"] ∧
    ∀ g ∈ (processInput cfgW rhW envHi
        (processInput cfgW rhW envHi sessPending "yes").session "yes").effects.googleQueries,
      g ≠ GoogleQuery.str "Q" := by
  obtain ⟨h1, h2, h3, h4, h5, h6, h7, h8⟩ :=
    C3_yes_searches_and_consumes cfgW rhW envHi sessPending "yes" "Q" rfl rfl (by decide)
      (Or.inl (by decide))
  exact ⟨h4, h3, h6, h8 "yes" "greeting" 2 1 rfl rfl (by decide)⟩

/-- C7: in ConfirmationPending, an input normalizing to "no"/"n" sets the
search preference to false, clears the pending flag and pending query,
appends the fixed decline response to the context, and returns that decline
message with intent `"default"`. -/
theorem C7_no_declines_search (cfg : Config) (rh : ResponseHandler) (env : Env)
    (sess : Session) (input : String)
    (hpend : sess.google_search_confirmation_pending = true)
    (hblank : ¬ pyStrip input = "")
    (hno : pyLower input = "no" ∨ pyLower input = "n") :
    (processInput cfg rh env sess input).session.session_google_search_preference = some false ∧
    (processInput cfg rh env sess input).session.google_search_confirmation_pending = false ∧
    (processInput cfg rh env sess input).session.last_unknown_query = none ∧
    (processInput cfg rh env sess input).session.context_handler =
      (sess.context_handler.add_user_query input).add_bot_response declineResponse ∧
    (processInput cfg rh env sess input).result.response = declineResponse ∧
    (processInput cfg rh env sess input).result.intent = "default" := by
  have hyn : ¬ (pyLower input = "yes" ∨ pyLower input = "y") := by
    rcases hno with h | h <;> rw [h] <;> decide
  have hstep : processInput cfg rh env sess input =
      ⟨⟨declineResponse, "default", 1, env.extract_entities input⟩,
        ⟨(sess.context_handler.add_user_query input).add_bot_response declineResponse,
          false, some false, none⟩,
        Effects.empty⟩ := by
    simp [processInput, hblank, hpend, hyn, eq_true hno, Effects.empty]
  exact ⟨by rw [hstep], by rw [hstep], by rw [hstep], by rw [hstep], by rw [hstep],
    by rw [hstep]⟩

/-- Witness for C7: the pending session declines on input `"no"`. -/
theorem C7_no_declines_search_witness :
    (processInput cfgW rhW envHi sessPending "no").session.session_google_search_preference =
      some false ∧
    (processInput cfgW rhW envHi sessPending "no").result.response = declineResponse ∧
    (processInput cfgW rhW envHi sessPending "no").result.intent = "default" := by
  obtain ⟨h1, h2, h3, h4, h5, h6⟩ :=
    C7_no_declines_search cfgW rhW envHi sessPending "no" rfl (by decide) (Or.inl (by decide))
  exact ⟨h1, h5, h6⟩

/-- Counterexample to C8 as stated: blank input in ConfirmationPending is
answered by the blank-input prompt with intent `"none"` (the blank check at
main.py line 166 runs before the confirmation handling), not by the yes/no
re-prompt with intent `"unknown_google_confirm"`. -/
theorem C8_counterexample :
    sessPending.google_search_confirmation_pending = true ∧
    pyStrip "" = "" ∧
    (processInput cfgW rhW envHi sessPending "").result.intent = "none" ∧
    ¬ (processInput cfgW rhW envHi sessPending "").result.intent = "unknown_google_confirm" ∧
    (processInput cfgW rhW envHi sessPending "").result.response = promptToType :=
  ⟨rfl, rfl, rfl, by decide, rfl⟩

/-- C8 (amended): in ConfirmationPending, any input that does not normalize
to "yes"/"y"/"no"/"n" leaves the session — context window, pending flag and
stored pending query — completely unchanged and performs no effect; a
non-blank such input re-issues the yes/no prompt with intent
`"unknown_google_confirm"`, while a blank input gets the blank-input prompt
with intent `"none"`. -/
theorem C8_other_input_keeps_state (cfg : Config) (rh : ResponseHandler) (env : Env)
    (sess : Session) (input : String)
    (hpend : sess.google_search_confirmation_pending = true)
    (hyn : pyLower input ∉ (["yes", "y", "no", "n"] : List String)) :
    (processInput cfg rh env sess input).session = sess ∧
    (processInput cfg rh env sess input).effects = Effects.empty ∧
    (pyStrip input = "" →
      (processInput cfg rh env sess input).result.intent = "none" ∧
      (processInput cfg rh env sess input).result.response = promptToType) ∧
    (¬ pyStrip input = "" →
      (processInput cfg rh env sess input).result.intent = "unknown_google_confirm" ∧
      (processInput cfg rh env sess input).result.response = googleReprompt) := by
  have h1 : ¬ (pyLower input = "yes" ∨ pyLower input = "y") := by
    intro hcontra
    apply hyn
    rcases hcontra with h | h <;> simp [h]
  have h2 : ¬ (pyLower input = "no" ∨ pyLower input = "n") := by
    intro hcontra
    apply hyn
    rcases hcontra with h | h <;> simp [h]
  by_cases hb : pyStrip input = ""
  · refine ⟨?_, ?_, fun _ => ⟨?_, ?_⟩, fun hc => absurd hb hc⟩ <;>
      simp [processInput, hb]
  · refine ⟨?_, ?_, fun hc => absurd hc hb, fun _ => ⟨?_, ?_⟩⟩ <;>
      simp [processInput, hb, hpend, h1, h2, Effects.empty]

/-- Witness for C8 (amended) at the non-answer input `"maybe"`. -/
theorem C8_other_input_keeps_state_witness :
    (processInput cfgW rhW envHi sessPending "maybe").session = sessPending ∧
    (processInput cfgW rhW envHi sessPending "maybe").result.intent =
      "unknown_google_confirm" ∧
    (processInput cfgW rhW envHi sessPending "maybe").result.response = googleReprompt := by
  obtain ⟨h1, h2, h3, h4⟩ :=
    C8_other_input_keeps_state cfgW rhW envHi sessPending "maybe" rfl (by decide)
  exact ⟨h1, (h4 (by decide)).1, (h4 (by decide)).2⟩

/-- Counterexample to C6 as stated: with the model never loaded or trained,
`predict_intent` returns `('unknown', 0.0)` instead of failing with a
`ModelNotReady` error, and the orchestrator issues the search-confirmation
prompt — not the degraded "trouble understanding" response with intent
`"error"`. -/
theorem C6_counterexample :
    svmUnset.predict_intent ["hi"] = ("unknown", 0) ∧
    (processInput cfgW rhW envSvmUnset (Session.fresh 3) "hi").result.intent =
      "unknown_google_confirm" ∧
    ¬ (processInput cfgW rhW envSvmUnset (Session.fresh 3) "hi").result.intent = "error" ∧
    ¬ (processInput cfgW rhW envSvmUnset (Session.fresh 3) "hi").result.response =
      troubleResponse :=
  ⟨rfl, rfl, by decide, by decide⟩

/-- C6 (amended): when prediction is attempted before any model has been
loaded or trained, `predict_intent` returns `('unknown', 0.0)` without
raising; the orchestrator then treats the turn as unknown (confirmation
prompt or preference-directed fallback) and never returns intent `"error"` —
the degraded "trouble understanding" response arises only when prediction
actually raises; in no case does the unset model crash the turn. -/
theorem C6_unset_model_treated_as_unknown (cfg : Config) (rh : ResponseHandler) (env : Env)
    (sess : Session) (input : String) (svm : SVMIntentClassifier) (t : Rat)
    (hunset : svm.model = false ∨ svm.vectorizer = false)
    (henv : env.classify = fun tokens => Except.ok (svm.predict_intent tokens))
    (hpend : sess.google_search_confirmation_pending = false)
    (hblank : ¬ pyStrip input = "")
    (hthr : cfg.CONFIDENCE_THRESHOLD = some t)
    (hpos : 0 < t) :
    svm.predict_intent (env.preprocess input) = ("unknown", 0) ∧
    ((processInput cfg rh env sess input).result.intent = "unknown" ∨
      (processInput cfg rh env sess input).result.intent = "unknown_google_confirm") ∧
    (processInput cfg rh env sess input).result.intent ≠ "error" := by
  have hpred : svm.predict_intent (env.preprocess input) = ("unknown", 0) := by
    rcases hunset with h | h <;> simp [SVMIntentClassifier.predict_intent, h]
  have hcls : env.classify (env.preprocess input) = Except.ok ("unknown", 0) := by
    simp only [henv, hpred]
  have hmain := processInput_low_confidence_intent cfg rh env sess input "unknown" 0 t
    hpend hblank hcls hthr hpos
  refine ⟨hpred, hmain, ?_⟩
  rcases hmain with h | h <;> rw [h] <;> decide

/-- Witness for C6 (amended) with the unset SVM classifier on input `"hi"`. -/
theorem C6_unset_model_treated_as_unknown_witness :
    svmUnset.predict_intent (envSvmUnset.preprocess "hi") = ("unknown", 0) ∧
    ((processInput cfgW rhW envSvmUnset (Session.fresh 3) "hi").result.intent = "unknown" ∨
      (processInput cfgW rhW envSvmUnset (Session.fresh 3) "hi").result.intent =
        "unknown_google_confirm") ∧
    (processInput cfgW rhW envSvmUnset (Session.fresh 3) "hi").result.intent ≠ "error" :=
  C6_unset_model_treated_as_unknown cfgW rhW envSvmUnset (Session.fresh 3) "hi" svmUnset 1
    (Or.inl rfl) rfl rfl (by decide) rfl (by decide)

end Chatbot
